import Mathlib

/-!
Verification of the Huvitz Excelon frame-scan capture system.

This file gives a shallow embedding of the two core source files of the
repository, `oma_generator.py` (the OMA binary codec) and
`frame_processor.py` (contour detection, measurement extraction and radial
profile synthesis), and proves the specified properties about them.

Modelling conventions:
* Python `bytes` values are `List Nat` with every element below 256.
* Python `str` values are represented by their UTF-8 byte sequences
  (`List Nat`); `str.encode("utf-8")` is the identity and
  `bytes.decode("utf-8")` validates the bytes and returns them unchanged.
* Python `float` (IEEE-754 double) fields that only travel through
  `struct.pack("<d")` / `struct.unpack("<d")` are represented by their
  64-bit bit pattern (`Nat` below `2 ^ 64`); pack/unpack is an exact bit
  copy on IEEE platforms, so the round trip is faithful.
* `struct.error`, `ValueError` and `UnicodeDecodeError` raised by the
  parser are the constructors of `PyError`.
* Real-valued geometry delivered by OpenCV (areas, perimeters, moments) is
  modelled over `ℚ`; the synthetic radial profile, which uses `math.sin`
  and `math.cos`, is modelled over `ℝ`.
* Python slicing `content[a : a + n]`, which silently truncates at the end
  of the buffer, is `sliceN`.
-/

namespace OmaGen

/-- Errors that `_parse_oma_content` (and the pack helpers) can raise:
`structError` is `struct.error` from a size mismatch in
`struct.unpack` / an out-of-range value in `struct.pack`; `valueError` is
the `ValueError("Invalid OMa file format")` raised on a bad magic;
`unicodeDecodeError` is `UnicodeDecodeError` from `bytes.decode("utf-8")`. -/
inductive PyError where
  | structError
  | valueError
  | unicodeDecodeError
deriving DecidableEq, Repr

/-- The magic marker `b"OMAF"` as bytes. -/
def omafMagic : List Nat := [79, 77, 65, 70]

/-- UTF-8 bytes of the hard-coded device string
`"Huvitz Excelon Frame Scanner"`. -/
def deviceInfoBytes : List Nat :=
  [72, 117, 118, 105, 116, 122, 32, 69, 120, 99, 101, 108, 111, 110, 32,
   70, 114, 97, 109, 101, 32, 83, 99, 97, 110, 110, 101, 114]

/-- Little-endian bytes of a `u32`, as produced by `struct.pack("<I", v)`. -/
def le32 (v : Nat) : List Nat :=
  [v % 256, v / 256 % 256, v / 65536 % 256, v / 16777216 % 256]

/-- Little-endian bytes of a 64-bit value, as produced by
`struct.pack("<d", x)` on the bit pattern of `x`. -/
def le64 (v : Nat) : List Nat :=
  [v % 256, v / 256 % 256, v / 65536 % 256, v / 16777216 % 256,
   v / 4294967296 % 256, v / 1099511627776 % 256,
   v / 281474976710656 % 256, v / 72057594037927936 % 256]

/-- Read a little-endian unsigned integer from a byte list, the value
computed by `struct.unpack` on an exact-size buffer. -/
def lereadNat (s : List Nat) : Nat :=
  s.foldr (fun b acc => b + 256 * acc) 0

/-- Bytes of `struct.pack("<nH", *radii)`: each radius as two
little-endian bytes. -/
def packU16s : List Nat → List Nat
  | [] => []
  | r :: rest => r % 256 :: r / 256 :: packU16s rest

/-- Values of `struct.unpack("<nH", s)` on an exact-size buffer: each
consecutive byte pair read little-endian. -/
def readU16s : List Nat → List Nat
  | b0 :: b1 :: rest => (b0 + 256 * b1) :: readU16s rest
  | _ => []

/-- Python slice `content[off : off + n]`: silently shorter than `n` when
the buffer ends early. -/
def sliceN (l : List Nat) (off n : Nat) : List Nat :=
  (l.drop off).take n

/-- Whether a continuation byte is in `0x80 ..= 0xBF`. -/
def isCont (b : Nat) : Bool := 128 ≤ b && b ≤ 191

/-- Strict UTF-8 validity of a byte sequence, the acceptance condition of
Python's `bytes.decode("utf-8")` (rejects overlong forms, surrogates and
code points above `U+10FFFF`). -/
def validUtf8 : List Nat → Bool
  | [] => true
  | b :: rest =>
    if b ≤ 127 then validUtf8 rest
    else if 194 ≤ b && b ≤ 223 then
      match rest with
      | c1 :: rest1 => isCont c1 && validUtf8 rest1
      | [] => false
    else if b == 224 then
      match rest with
      | c1 :: c2 :: rest2 => (160 ≤ c1 && c1 ≤ 191) && isCont c2 && validUtf8 rest2
      | _ => false
    else if 225 ≤ b && b ≤ 236 then
      match rest with
      | c1 :: c2 :: rest2 => isCont c1 && isCont c2 && validUtf8 rest2
      | _ => false
    else if b == 237 then
      match rest with
      | c1 :: c2 :: rest2 => (128 ≤ c1 && c1 ≤ 159) && isCont c2 && validUtf8 rest2
      | _ => false
    else if 238 ≤ b && b ≤ 239 then
      match rest with
      | c1 :: c2 :: rest2 => isCont c1 && isCont c2 && validUtf8 rest2
      | _ => false
    else if b == 240 then
      match rest with
      | c1 :: c2 :: c3 :: rest3 =>
          (144 ≤ c1 && c1 ≤ 191) && isCont c2 && isCont c3 && validUtf8 rest3
      | _ => false
    else if 241 ≤ b && b ≤ 243 then
      match rest with
      | c1 :: c2 :: c3 :: rest3 => isCont c1 && isCont c2 && isCont c3 && validUtf8 rest3
      | _ => false
    else if b == 244 then
      match rest with
      | c1 :: c2 :: c3 :: rest3 =>
          (128 ≤ c1 && c1 ≤ 143) && isCont c2 && isCont c3 && validUtf8 rest3
      | _ => false
    else false

/-- The `measurements` dictionary consumed by `_create_frame_data`:
every key may be absent (`measurements.get(key, default)`); `area` and
`perimeter` hold f64 bit patterns. -/
structure FrameMeasurements where
  width : Option Nat := none
  height : Option Nat := none
  center : Option (Nat × Nat) := none
  area : Option Nat := none
  perimeter : Option Nat := none
deriving DecidableEq, Repr

/-- The `scan_data` dictionary consumed by `_build_oma_content`: an
absent `measurements` key behaves as the all-absent record, an absent
`radii` key as the empty list, so those two use plain defaults; an absent
`timestamp` makes the generator substitute the current time, so it stays
an `Option` and the clock value is threaded explicitly. -/
structure ScanRecord where
  timestamp : Option (List Nat) := none
  measurements : FrameMeasurements := {}
  radii : List Nat := []
deriving DecidableEq, Repr

/-- Embedding of `OMAGenerator._create_header`; `now` is the value
`datetime.now().isoformat()` would produce, used only when the record has
no timestamp. `struct.pack("<I", v)` raises `struct.error` when `v` does
not fit a `u32`. -/
def createHeader (now : List Nat) (s : ScanRecord) : Except PyError (List Nat) :=
  let timestampBytes := s.timestamp.getD now
  if s.radii.length < 4294967296 ∧ timestampBytes.length < 4294967296 then
    .ok (omafMagic ++ le32 1 ++ le32 s.radii.length ++
      le32 timestampBytes.length ++ timestampBytes ++
      le32 deviceInfoBytes.length ++ deviceInfoBytes)
  else .error .structError

/-- Embedding of `OMAGenerator._create_frame_data`: absent measurement
fields fall back to `0` (center to `(0, 0)`); the four `u32` fields are
range-checked by `struct.pack("<4I", ...)`; the two doubles are emitted as
their bit patterns by `struct.pack("<2d", ...)`, which never fails. -/
def createFrameData (s : ScanRecord) : Except PyError (List Nat) :=
  let m := s.measurements
  let width := m.width.getD 0
  let height := m.height.getD 0
  let area := m.area.getD 0
  let perimeter := m.perimeter.getD 0
  let center := m.center.getD (0, 0)
  if width < 4294967296 ∧ height < 4294967296 ∧
      center.1 < 4294967296 ∧ center.2 < 4294967296 then
    .ok (le32 width ++ le32 height ++ le32 center.1 ++ le32 center.2 ++
      le64 area ++ le64 perimeter)
  else .error .structError

/-- Embedding of `OMAGenerator._create_radius_data`: empty radius lists
produce no bytes; otherwise `struct.pack` range-checks every radius
against `u16`. -/
def createRadiusData (s : ScanRecord) : Except PyError (List Nat) :=
  if s.radii = [] then .ok []
  else if ∀ r ∈ s.radii, r < 65536 then .ok (packU16s s.radii)
  else .error .structError

/-- Embedding of `OMAGenerator._build_oma_content`: header, frame data and
radius data concatenated. -/
def buildOmaContent (now : List Nat) (s : ScanRecord) : Except PyError (List Nat) := do
  let header ← createHeader now s
  let frameData ← createFrameData s
  let radiusData ← createRadiusData s
  return header ++ frameData ++ radiusData

/-- The nested `measurements` dictionary of the value returned by
`_parse_oma_content`. -/
structure ParsedMeasurements where
  width : Nat
  height : Nat
  center : Nat × Nat
  area : Nat
  perimeter : Nat
deriving DecidableEq, Repr

/-- The dictionary returned by `_parse_oma_content`. -/
structure ParsedOma where
  version : Nat
  timestamp : List Nat
  device_info : List Nat
  measurements : ParsedMeasurements
  radii : List Nat
deriving DecidableEq, Repr

/-- Value of the `timestamp_len` header field, read at offset 12. -/
def tsLenOf (content : List Nat) : Nat := lereadNat (sliceN content 12 4)

/-- Value of the `device_len` header field, read right after the
timestamp, at offset `16 + timestamp_len`. -/
def devLenOf (content : List Nat) : Nat :=
  lereadNat (sliceN content (16 + tsLenOf content) 4)

/-- Value of the `num_radii` header field, read at offset 8. -/
def numRadiiOf (content : List Nat) : Nat := lereadNat (sliceN content 8 4)

/-- Embedding of `OMAGenerator._parse_oma_content`. The checks fire in
exactly the source order: magic unpack, magic comparison, version unpack,
radius-count unpack, timestamp-length unpack, timestamp UTF-8 decode,
device-length unpack, device UTF-8 decode, `"<4I"` unpack, `"<2d"`
unpack, radius unpack. Offsets follow the source: the timestamp starts at
byte 16, the device length at `16 + tsLen`, the frame data at
`20 + tsLen + devLen`, the doubles 16 bytes later and the radii at
`52 + tsLen + devLen`. -/
def parseOmaContent (content : List Nat) : Except PyError ParsedOma :=
  if (sliceN content 0 4).length ≠ 4 then .error .structError
  else if sliceN content 0 4 ≠ omafMagic then .error .valueError
  else if (sliceN content 4 4).length ≠ 4 then .error .structError
  else if (sliceN content 8 4).length ≠ 4 then .error .structError
  else if (sliceN content 12 4).length ≠ 4 then .error .structError
  else if ¬ validUtf8 (sliceN content 16 (tsLenOf content)) then
    .error .unicodeDecodeError
  else if (sliceN content (16 + tsLenOf content) 4).length ≠ 4 then
    .error .structError
  else if ¬ validUtf8 (sliceN content (20 + tsLenOf content) (devLenOf content)) then
    .error .unicodeDecodeError
  else if (sliceN content (20 + tsLenOf content + devLenOf content) 16).length ≠ 16 then
    .error .structError
  else if (sliceN content (36 + tsLenOf content + devLenOf content) 16).length ≠ 16 then
    .error .structError
  else if (sliceN content (52 + tsLenOf content + devLenOf content)
      (2 * numRadiiOf content)).length ≠ 2 * numRadiiOf content then
    .error .structError
  else .ok {
    version := lereadNat (sliceN content 4 4)
    timestamp := sliceN content 16 (tsLenOf content)
    device_info := sliceN content (20 + tsLenOf content) (devLenOf content)
    measurements := {
      width := lereadNat
        (sliceN (sliceN content (20 + tsLenOf content + devLenOf content) 16) 0 4)
      height := lereadNat
        (sliceN (sliceN content (20 + tsLenOf content + devLenOf content) 16) 4 4)
      center := (lereadNat
          (sliceN (sliceN content (20 + tsLenOf content + devLenOf content) 16) 8 4),
        lereadNat
          (sliceN (sliceN content (20 + tsLenOf content + devLenOf content) 16) 12 4))
      area := lereadNat
        (sliceN (sliceN content (36 + tsLenOf content + devLenOf content) 16) 0 8)
      perimeter := lereadNat
        (sliceN (sliceN content (36 + tsLenOf content + devLenOf content) 16) 8 8) }
    radii := readU16s (sliceN content (52 + tsLenOf content + devLenOf content)
      (2 * numRadiiOf content)) }

theorem le32_length (v : Nat) : (le32 v).length = 4 := rfl

theorem le64_length (v : Nat) : (le64 v).length = 8 := rfl

theorem lereadNat_le32 (v : Nat) (h : v < 4294967296) : lereadNat (le32 v) = v := by
  simp only [lereadNat, le32, List.foldr]
  omega

theorem lereadNat_le64 (v : Nat) (h : v < 18446744073709551616) :
    lereadNat (le64 v) = v := by
  simp only [lereadNat, le64, List.foldr]
  omega

theorem packU16s_length (l : List Nat) : (packU16s l).length = 2 * l.length := by
  induction l with
  | nil => rfl
  | cons r rest ih => simp [packU16s, ih]; omega

theorem readU16s_packU16s (l : List Nat) : readU16s (packU16s l) = l := by
  induction l with
  | nil => rfl
  | cons r rest ih =>
    simp only [packU16s, readU16s, ih, List.cons.injEq, and_true]
    omega

theorem sliceN_exact (pre mid post : List Nat) (off n : Nat)
    (hoff : pre.length = off) (hn : mid.length = n) :
    sliceN (pre ++ (mid ++ post)) off n = mid := by
  subst hoff hn
  rw [sliceN, List.drop_left, List.take_left]

theorem createHeader_ok (now ts : List Nat) (r : ScanRecord)
    (hts : r.timestamp = some ts)
    (htlen : ts.length < 4294967296)
    (hn : r.radii.length ≤ 65535) :
    createHeader now r = .ok (omafMagic ++ le32 1 ++ le32 r.radii.length ++
      le32 ts.length ++ ts ++ le32 28 ++ deviceInfoBytes) := by
  simp only [createHeader, hts, Option.getD_some]
  rw [if_pos ⟨by omega, htlen⟩]
  rfl

theorem createFrameData_ok (r : ScanRecord) (w h cx cy ar pm : Nat)
    (hw : r.measurements.width = some w) (hw32 : w < 4294967296)
    (hh : r.measurements.height = some h) (hh32 : h < 4294967296)
    (hc : r.measurements.center = some (cx, cy))
    (hcx32 : cx < 4294967296) (hcy32 : cy < 4294967296)
    (har : r.measurements.area = some ar)
    (hpm : r.measurements.perimeter = some pm) :
    createFrameData r = .ok (le32 w ++ le32 h ++ le32 cx ++ le32 cy ++
      le64 ar ++ le64 pm) := by
  simp only [createFrameData, hw, hh, hc, har, hpm, Option.getD_some]
  rw [if_pos ⟨hw32, hh32, hcx32, hcy32⟩]

theorem createRadiusData_ok (r : ScanRecord) (hr16 : ∀ x ∈ r.radii, x < 65536) :
    createRadiusData r = .ok (packU16s r.radii) := by
  by_cases hr0 : r.radii = []
  · simp [createRadiusData, hr0, packU16s]
  · simp only [createRadiusData, if_neg hr0]
    rw [if_pos hr16]

/-- C1: for every `ScanRecord` whose radius list has length at most 65535
with each radius below `2 ^ 16`, whose timestamp is valid UTF-8 (the device
string is the hard-coded constant, which is ASCII) and whose measurement
fields carry values in the ranges given by the data model (`u32` for the
bounding box and centroid, an f64 bit pattern for area and perimeter),
encoding succeeds and decoding the produced bytes yields the record back
field-for-field: timestamp, width, height, center, area, perimeter and the
radius list. -/
theorem decode_encode_roundtrip
    (now ts : List Nat) (r : ScanRecord)
    (w h cx cy ar pm : Nat)
    (hts : r.timestamp = some ts)
    (hvalid : validUtf8 ts = true)
    (htlen : ts.length < 4294967296)
    (hw : r.measurements.width = some w) (hw32 : w < 4294967296)
    (hh : r.measurements.height = some h) (hh32 : h < 4294967296)
    (hc : r.measurements.center = some (cx, cy))
    (hcx32 : cx < 4294967296) (hcy32 : cy < 4294967296)
    (har : r.measurements.area = some ar) (har64 : ar < 18446744073709551616)
    (hpm : r.measurements.perimeter = some pm) (hpm64 : pm < 18446744073709551616)
    (hn : r.radii.length ≤ 65535)
    (hr16 : ∀ x ∈ r.radii, x < 65536) :
    ∃ bytes, buildOmaContent now r = .ok bytes ∧
      parseOmaContent bytes = .ok {
        version := 1
        timestamp := ts
        device_info := deviceInfoBytes
        measurements := { width := w, height := h, center := (cx, cy),
                          area := ar, perimeter := pm }
        radii := r.radii } := by
  refine ⟨(omafMagic ++ le32 1 ++ le32 r.radii.length ++ le32 ts.length ++ ts ++
      le32 28 ++ deviceInfoBytes) ++ (le32 w ++ le32 h ++ le32 cx ++ le32 cy ++
      le64 ar ++ le64 pm) ++ packU16s r.radii, ?_, ?_⟩
  · simp only [buildOmaContent, createHeader_ok now ts r hts htlen hn,
      createFrameData_ok r w h cx cy ar pm hw hw32 hh hh32 hc hcx32 hcy32 har hpm,
      createRadiusData_ok r hr16]
    rfl
  · set B := (omafMagic ++ le32 1 ++ le32 r.radii.length ++ le32 ts.length ++ ts ++
      le32 28 ++ deviceInfoBytes) ++ (le32 w ++ le32 h ++ le32 cx ++ le32 cy ++
      le64 ar ++ le64 pm) ++ packU16s r.radii with hB
    have hs0 : sliceN B 0 4 = omafMagic := by
      have hd : B = omafMagic ++ (le32 1 ++ (le32 r.radii.length ++ (le32 ts.length ++
          (ts ++ (le32 28 ++ (deviceInfoBytes ++ (le32 w ++ (le32 h ++ (le32 cx ++
          (le32 cy ++ (le64 ar ++ (le64 pm ++ packU16s r.radii)))))))))))) := by
        simp [hB, List.append_assoc]
      rw [hd]
      exact sliceN_exact [] omafMagic _ 0 4 rfl rfl
    have hs4 : sliceN B 4 4 = le32 1 := by
      have hd : B = omafMagic ++ (le32 1 ++ (le32 r.radii.length ++ (le32 ts.length ++
          (ts ++ (le32 28 ++ (deviceInfoBytes ++ (le32 w ++ (le32 h ++ (le32 cx ++
          (le32 cy ++ (le64 ar ++ (le64 pm ++ packU16s r.radii)))))))))))) := by
        simp [hB, List.append_assoc]
      rw [hd]
      exact sliceN_exact omafMagic (le32 1) _ 4 4 rfl rfl
    have hs8 : sliceN B 8 4 = le32 r.radii.length := by
      have hd : B = (omafMagic ++ le32 1) ++ (le32 r.radii.length ++ (le32 ts.length ++
          (ts ++ (le32 28 ++ (deviceInfoBytes ++ (le32 w ++ (le32 h ++ (le32 cx ++
          (le32 cy ++ (le64 ar ++ (le64 pm ++ packU16s r.radii))))))))))) := by
        simp [hB, List.append_assoc]
      rw [hd]
      exact sliceN_exact _ _ _ 8 4 rfl rfl
    have hs12 : sliceN B 12 4 = le32 ts.length := by
      have hd : B = (omafMagic ++ le32 1 ++ le32 r.radii.length) ++ (le32 ts.length ++
          (ts ++ (le32 28 ++ (deviceInfoBytes ++ (le32 w ++ (le32 h ++ (le32 cx ++
          (le32 cy ++ (le64 ar ++ (le64 pm ++ packU16s r.radii)))))))))) := by
        simp [hB, List.append_assoc]
      rw [hd]
      exact sliceN_exact _ _ _ 12 4 rfl rfl
    have hs16 : sliceN B 16 ts.length = ts := by
      have hd : B = (omafMagic ++ le32 1 ++ le32 r.radii.length ++ le32 ts.length) ++
          (ts ++ (le32 28 ++ (deviceInfoBytes ++ (le32 w ++ (le32 h ++ (le32 cx ++
          (le32 cy ++ (le64 ar ++ (le64 pm ++ packU16s r.radii))))))))) := by
        simp [hB, List.append_assoc]
      rw [hd]
      exact sliceN_exact _ _ _ 16 ts.length rfl rfl
    have hsdl : sliceN B (16 + ts.length) 4 = le32 28 := by
      have hd : B = (omafMagic ++ le32 1 ++ le32 r.radii.length ++ le32 ts.length ++ ts) ++
          (le32 28 ++ (deviceInfoBytes ++ (le32 w ++ (le32 h ++ (le32 cx ++
          (le32 cy ++ (le64 ar ++ (le64 pm ++ packU16s r.radii)))))))) := by
        simp [hB, List.append_assoc]
      rw [hd]
      refine sliceN_exact _ _ _ (16 + ts.length) 4 ?_ rfl
      simp [le32, omafMagic]
      omega
    have hsdev : sliceN B (20 + ts.length) 28 = deviceInfoBytes := by
      have hd : B = (omafMagic ++ le32 1 ++ le32 r.radii.length ++ le32 ts.length ++ ts ++
          le32 28) ++ (deviceInfoBytes ++ (le32 w ++ (le32 h ++ (le32 cx ++
          (le32 cy ++ (le64 ar ++ (le64 pm ++ packU16s r.radii))))))) := by
        simp [hB, List.append_assoc]
      rw [hd]
      refine sliceN_exact _ _ _ (20 + ts.length) 28 ?_ rfl
      simp [le32, omafMagic]
      omega
    have hsframe : sliceN B (20 + ts.length + 28) 16 =
        le32 w ++ le32 h ++ le32 cx ++ le32 cy := by
      have hd : B = (omafMagic ++ le32 1 ++ le32 r.radii.length ++ le32 ts.length ++ ts ++
          le32 28 ++ deviceInfoBytes) ++ ((le32 w ++ le32 h ++ le32 cx ++ le32 cy) ++
          (le64 ar ++ (le64 pm ++ packU16s r.radii))) := by
        simp [hB, List.append_assoc]
      rw [hd]
      refine sliceN_exact _ _ _ (20 + ts.length + 28) 16 ?_ rfl
      simp [le32, omafMagic, deviceInfoBytes]
      omega
    have hsdbl : sliceN B (36 + ts.length + 28) 16 = le64 ar ++ le64 pm := by
      have hd : B = (omafMagic ++ le32 1 ++ le32 r.radii.length ++ le32 ts.length ++ ts ++
          le32 28 ++ deviceInfoBytes ++ le32 w ++ le32 h ++ le32 cx ++ le32 cy) ++
          ((le64 ar ++ le64 pm) ++ packU16s r.radii) := by
        simp [hB, List.append_assoc]
      rw [hd]
      refine sliceN_exact _ _ _ (36 + ts.length + 28) 16 ?_ rfl
      simp [le32, omafMagic, deviceInfoBytes]
      omega
    have hsrad : sliceN B (52 + ts.length + 28) (2 * r.radii.length) =
        packU16s r.radii := by
      have hd : B = (omafMagic ++ le32 1 ++ le32 r.radii.length ++ le32 ts.length ++ ts ++
          le32 28 ++ deviceInfoBytes ++ le32 w ++ le32 h ++ le32 cx ++ le32 cy ++
          le64 ar ++ le64 pm) ++ (packU16s r.radii ++ []) := by
        simp [hB, List.append_assoc]
      rw [hd]
      refine sliceN_exact _ _ _ (52 + ts.length + 28) (2 * r.radii.length) ?_
        (packU16s_length r.radii)
      simp [le32, le64, omafMagic, deviceInfoBytes]
      omega
    have hn32 : r.radii.length < 4294967296 := by omega
    have ht : tsLenOf B = ts.length := by
      rw [tsLenOf, hs12]
      exact lereadNat_le32 ts.length htlen
    have hdl : devLenOf B = 28 := by
      rw [devLenOf, ht, hsdl]
      exact lereadNat_le32 28 (by norm_num)
    have hnr : numRadiiOf B = r.radii.length := by
      rw [numRadiiOf, hs8]
      exact lereadNat_le32 r.radii.length hn32
    simp only [parseOmaContent, ht, hdl, hnr, hs0, hs4, hs8, hs12, hs16, hsdl,
      hsdev, hsframe, hsdbl, hsrad]
    have hframe0 : sliceN (le32 w ++ le32 h ++ le32 cx ++ le32 cy) 0 4 = le32 w := by
      have hd : le32 w ++ le32 h ++ le32 cx ++ le32 cy =
          le32 w ++ (le32 h ++ (le32 cx ++ le32 cy)) := by simp [List.append_assoc]
      rw [hd]
      exact sliceN_exact [] (le32 w) _ 0 4 rfl rfl
    have hframe4 : sliceN (le32 w ++ le32 h ++ le32 cx ++ le32 cy) 4 4 = le32 h := by
      have hd : le32 w ++ le32 h ++ le32 cx ++ le32 cy =
          le32 w ++ (le32 h ++ (le32 cx ++ le32 cy)) := by simp [List.append_assoc]
      rw [hd]
      exact sliceN_exact (le32 w) (le32 h) _ 4 4 rfl rfl
    have hframe8 : sliceN (le32 w ++ le32 h ++ le32 cx ++ le32 cy) 8 4 = le32 cx := by
      have hd : le32 w ++ le32 h ++ le32 cx ++ le32 cy =
          (le32 w ++ le32 h) ++ (le32 cx ++ le32 cy) := by simp [List.append_assoc]
      rw [hd]
      exact sliceN_exact _ _ _ 8 4 rfl rfl
    have hframe12 : sliceN (le32 w ++ le32 h ++ le32 cx ++ le32 cy) 12 4 = le32 cy := by
      have hd : le32 w ++ le32 h ++ le32 cx ++ le32 cy =
          (le32 w ++ le32 h ++ le32 cx) ++ (le32 cy ++ []) := by simp [List.append_assoc]
      rw [hd]
      exact sliceN_exact _ _ _ 12 4 rfl rfl
    have hdbl0 : sliceN (le64 ar ++ le64 pm) 0 8 = le64 ar :=
      sliceN_exact [] (le64 ar) (le64 pm) 0 8 rfl rfl
    have hdbl8 : sliceN (le64 ar ++ le64 pm) 8 8 = le64 pm := by
      have hd : le64 ar ++ le64 pm = le64 ar ++ (le64 pm ++ []) := by simp
      rw [hd]
      exact sliceN_exact _ _ _ 8 8 rfl rfl
    simp only [hframe0, hframe4, hframe8, hframe12, hdbl0, hdbl8,
      lereadNat_le32 w hw32, lereadNat_le32 h hh32, lereadNat_le32 cx hcx32,
      lereadNat_le32 cy hcy32, lereadNat_le64 ar har64, lereadNat_le64 pm hpm64,
      readU16s_packU16s, packU16s_length, hvalid]
    have hdev : validUtf8 [72, 117, 118, 105, 116, 122, 32, 69, 120, 99, 101, 108, 111,
        110, 32, 70, 114, 97, 109, 101, 32, 83, 99, 97, 110, 110, 101, 114] = true := by
      decide
    norm_num [omafMagic, le32_length, le64_length, deviceInfoBytes, hdev]
    rfl

/-- Witness for the round trip at a concrete record with timestamp bytes
`"2025"`, the measurement of the sample scan and a two-element radius
list. -/
theorem decode_encode_roundtrip_witness :
    ∃ bytes, buildOmaContent []
      { timestamp := some [50, 48, 50, 53],
        measurements := { width := some 1552, height := some 51,
                          center := some (776, 25), area := some 3,
                          perimeter := some 7 },
        radii := [2354, 2359] } = .ok bytes ∧
      parseOmaContent bytes = .ok
      { version := 1,
        timestamp := [50, 48, 50, 53],
        device_info := deviceInfoBytes,
        measurements := { width := 1552, height := 51, center := (776, 25),
                          area := 3, perimeter := 7 },
        radii := [2354, 2359] } :=
  decode_encode_roundtrip [] [50, 48, 50, 53]
    { timestamp := some [50, 48, 50, 53],
      measurements := { width := some 1552, height := some 51,
                        center := some (776, 25), area := some 3,
                        perimeter := some 7 },
      radii := [2354, 2359] }
    1552 51 776 25 3 7 rfl (by decide) (by decide) rfl (by decide) rfl (by decide)
    rfl (by decide) (by decide) rfl (by decide) rfl (by decide) (by decide) (by decide)

/-- C2 (code bug): a buffer with a complete, well-formed header that
declares `num_radii = 1000` but carries no radius bytes makes
`_parse_oma_content` raise the low-level `struct.error` from
`struct.unpack` (modelled `PyError.structError`), an uncaught untagged
exception, not the `TruncatedDataError` the specification requires; no
such tagged error exists anywhere in the code. -/
theorem parse_truncated_raises_struct_error :
    parseOmaContent [79, 77, 65, 70, 1, 0, 0, 0, 232, 3, 0, 0, 0, 0, 0, 0,
      0, 0, 0, 0, 0, 0, 0, 0, 0, 0, 0, 0, 0, 0, 0, 0, 0, 0, 0, 0,
      0, 0, 0, 0, 0, 0, 0, 0, 0, 0, 0, 0, 0, 0, 0, 0] =
      .error .structError := by
  rfl

/-- C3: a buffer of at least 4 bytes whose first 4 bytes are not the
magic marker `"OMAF"` is rejected with the
`ValueError("Invalid OMa file format")` — the `FormatError` of the
specification — and no record is returned. -/
theorem parse_bad_magic (content : List Nat) (hlen : 4 ≤ content.length)
    (hmagic : content.take 4 ≠ omafMagic) :
    parseOmaContent content = .error .valueError := by
  have hslice : sliceN content 0 4 = content.take 4 := by simp [sliceN]
  have hslen : (content.take 4).length = 4 := by
    simp only [List.length_take]
    omega
  simp only [parseOmaContent, hslice, hslen]
  rw [if_neg (by omega), if_pos hmagic]

/-- Witness for the magic check on the all-zero 4-byte buffer. -/
theorem parse_bad_magic_witness :
    parseOmaContent [0, 0, 0, 0] = .error .valueError :=
  parse_bad_magic [0, 0, 0, 0] (by decide) (by decide)

theorem sliceN_append_of_full (b s : List Nat) (a n : Nat)
    (h : (sliceN b a n).length = n) : sliceN (b ++ s) a n = sliceN b a n := by
  by_cases ha : a ≤ b.length
  · rw [sliceN, List.drop_append_of_le_length ha]
    have hfull : n ≤ (b.drop a).length := by
      rw [sliceN, List.length_take] at h
      omega
    rw [List.take_append_of_le_length hfull, sliceN]
  · have hb : b.drop a = [] := List.drop_eq_nil_of_le (by omega)
    have hn : n = 0 := by
      rw [sliceN, hb] at h
      simpa using h.symm
    subst hn
    simp [sliceN]

theorem sliceN_full_of_later (b : List Nat) (a n a2 n2 : Nat)
    (h : (sliceN b a2 n2).length = n2) (h2 : 0 < n2) (hle : a + n ≤ a2) :
    (sliceN b a n).length = n := by
  simp only [sliceN, List.length_take, List.length_drop] at h ⊢
  omega

/-- C9: the parser never inspects bytes beyond the declared radius
section: appending any suffix to a buffer that decodes successfully still
decodes successfully to the same record, so trailing garbage is silently
accepted. -/
theorem parse_append (b s : List Nat) (r : ParsedOma)
    (h : parseOmaContent b = .ok r) :
    parseOmaContent (b ++ s) = .ok r := by
  unfold parseOmaContent at h
  by_cases h1 : (sliceN b 0 4).length ≠ 4
  · rw [if_pos h1] at h
    exact Except.noConfusion h
  rw [if_neg h1] at h
  by_cases h2 : sliceN b 0 4 ≠ omafMagic
  · rw [if_pos h2] at h
    exact Except.noConfusion h
  rw [if_neg h2] at h
  by_cases h3 : (sliceN b 4 4).length ≠ 4
  · rw [if_pos h3] at h
    exact Except.noConfusion h
  rw [if_neg h3] at h
  by_cases h4 : (sliceN b 8 4).length ≠ 4
  · rw [if_pos h4] at h
    exact Except.noConfusion h
  rw [if_neg h4] at h
  by_cases h5 : (sliceN b 12 4).length ≠ 4
  · rw [if_pos h5] at h
    exact Except.noConfusion h
  rw [if_neg h5] at h
  by_cases h6 : ¬ validUtf8 (sliceN b 16 (tsLenOf b))
  · rw [if_pos h6] at h
    exact Except.noConfusion h
  rw [if_neg h6] at h
  by_cases h7 : (sliceN b (16 + tsLenOf b) 4).length ≠ 4
  · rw [if_pos h7] at h
    exact Except.noConfusion h
  rw [if_neg h7] at h
  by_cases h8 : ¬ validUtf8 (sliceN b (20 + tsLenOf b) (devLenOf b))
  · rw [if_pos h8] at h
    exact Except.noConfusion h
  rw [if_neg h8] at h
  by_cases h9 : (sliceN b (20 + tsLenOf b + devLenOf b) 16).length ≠ 16
  · rw [if_pos h9] at h
    exact Except.noConfusion h
  rw [if_neg h9] at h
  by_cases h10 : (sliceN b (36 + tsLenOf b + devLenOf b) 16).length ≠ 16
  · rw [if_pos h10] at h
    exact Except.noConfusion h
  rw [if_neg h10] at h
  by_cases h11 : (sliceN b (52 + tsLenOf b + devLenOf b)
      (2 * numRadiiOf b)).length ≠ 2 * numRadiiOf b
  · rw [if_pos h11] at h
    exact Except.noConfusion h
  rw [if_neg h11] at h
  have h1' := not_ne_iff.mp h1
  have h3' := not_ne_iff.mp h3
  have h4' := not_ne_iff.mp h4
  have h5' := not_ne_iff.mp h5
  have h7' := not_ne_iff.mp h7
  have h9' := not_ne_iff.mp h9
  have h10' := not_ne_iff.mp h10
  have h11' := not_ne_iff.mp h11
  have e0 : sliceN (b ++ s) 0 4 = sliceN b 0 4 :=
    sliceN_append_of_full b s 0 4 h1'
  have e4 : sliceN (b ++ s) 4 4 = sliceN b 4 4 :=
    sliceN_append_of_full b s 4 4 h3'
  have e8 : sliceN (b ++ s) 8 4 = sliceN b 8 4 :=
    sliceN_append_of_full b s 8 4 h4'
  have e12 : sliceN (b ++ s) 12 4 = sliceN b 12 4 :=
    sliceN_append_of_full b s 12 4 h5'
  have ht : tsLenOf (b ++ s) = tsLenOf b := by
    rw [tsLenOf, e12, tsLenOf]
  have e20 : sliceN (b ++ s) (16 + tsLenOf b) 4 = sliceN b (16 + tsLenOf b) 4 :=
    sliceN_append_of_full b s (16 + tsLenOf b) 4 h7'
  have hd : devLenOf (b ++ s) = devLenOf b := by
    rw [devLenOf, ht, e20, devLenOf]
  have hnr : numRadiiOf (b ++ s) = numRadiiOf b := by
    rw [numRadiiOf, e8, numRadiiOf]
  have f16 : (sliceN b 16 (tsLenOf b)).length = tsLenOf b :=
    sliceN_full_of_later b 16 (tsLenOf b) (16 + tsLenOf b) 4 h7'
      (by omega) (by omega)
  have e16 : sliceN (b ++ s) 16 (tsLenOf b) = sliceN b 16 (tsLenOf b) :=
    sliceN_append_of_full b s 16 (tsLenOf b) f16
  have fdev : (sliceN b (20 + tsLenOf b) (devLenOf b)).length = devLenOf b :=
    sliceN_full_of_later b (20 + tsLenOf b) (devLenOf b)
      (20 + tsLenOf b + devLenOf b) 16 h9' (by omega) (by omega)
  have edev : sliceN (b ++ s) (20 + tsLenOf b) (devLenOf b) =
      sliceN b (20 + tsLenOf b) (devLenOf b) :=
    sliceN_append_of_full b s (20 + tsLenOf b) (devLenOf b) fdev
  have eframe : sliceN (b ++ s) (20 + tsLenOf b + devLenOf b) 16 =
      sliceN b (20 + tsLenOf b + devLenOf b) 16 :=
    sliceN_append_of_full b s (20 + tsLenOf b + devLenOf b) 16 h9'
  have edbl : sliceN (b ++ s) (36 + tsLenOf b + devLenOf b) 16 =
      sliceN b (36 + tsLenOf b + devLenOf b) 16 :=
    sliceN_append_of_full b s (36 + tsLenOf b + devLenOf b) 16 h10'
  have erad : sliceN (b ++ s) (52 + tsLenOf b + devLenOf b)
      (2 * numRadiiOf b) =
      sliceN b (52 + tsLenOf b + devLenOf b) (2 * numRadiiOf b) :=
    sliceN_append_of_full b s (52 + tsLenOf b + devLenOf b)
      (2 * numRadiiOf b) h11'
  unfold parseOmaContent
  rw [ht, hd, hnr, e0, e4, e8, e12, e16, e20, edev, eframe, edbl, erad]
  rw [if_neg h1, if_neg h2, if_neg h3, if_neg h4, if_neg h5, if_neg h6,
    if_neg h7, if_neg h8, if_neg h9, if_neg h10, if_neg h11]
  exact h

/-- Witness for trailing-garbage acceptance: a minimal 52-byte valid
buffer with no timestamp, no device string and no radii still parses to
the same record after a garbage byte is appended. -/
theorem parse_append_witness :
    parseOmaContent ([79, 77, 65, 70, 1, 0, 0, 0, 0, 0, 0, 0, 0, 0, 0, 0,
      0, 0, 0, 0, 0, 0, 0, 0, 0, 0, 0, 0, 0, 0, 0, 0, 0, 0, 0, 0,
      0, 0, 0, 0, 0, 0, 0, 0, 0, 0, 0, 0, 0, 0, 0, 0] ++ [7]) =
      .ok { version := 1, timestamp := [], device_info := [],
            measurements := { width := 0, height := 0, center := (0, 0),
                              area := 0, perimeter := 0 },
            radii := [] } :=
  parse_append [79, 77, 65, 70, 1, 0, 0, 0, 0, 0, 0, 0, 0, 0, 0, 0,
      0, 0, 0, 0, 0, 0, 0, 0, 0, 0, 0, 0, 0, 0, 0, 0, 0, 0, 0, 0,
      0, 0, 0, 0, 0, 0, 0, 0, 0, 0, 0, 0, 0, 0, 0, 0] [7]
    { version := 1, timestamp := [], device_info := [],
      measurements := { width := 0, height := 0, center := (0, 0),
                        area := 0, perimeter := 0 },
      radii := [] } (by rfl)

/-- C10: `_create_frame_data` is total over absent or partial
measurements: each missing field falls back to `0` (a missing center to
`(0, 0)`) via `measurements.get(key, default)`, and packing succeeds
whenever the present fields fit their types. -/
theorem createFrameData_defaults (r : ScanRecord)
    (hw : r.measurements.width.getD 0 < 4294967296)
    (hh : r.measurements.height.getD 0 < 4294967296)
    (hcx : (r.measurements.center.getD (0, 0)).1 < 4294967296)
    (hcy : (r.measurements.center.getD (0, 0)).2 < 4294967296) :
    createFrameData r = .ok (le32 (r.measurements.width.getD 0) ++
      le32 (r.measurements.height.getD 0) ++
      le32 (r.measurements.center.getD (0, 0)).1 ++
      le32 (r.measurements.center.getD (0, 0)).2 ++
      le64 (r.measurements.area.getD 0) ++
      le64 (r.measurements.perimeter.getD 0)) := by
  simp only [createFrameData]
  rw [if_pos ⟨hw, hh, hcx, hcy⟩]

/-- Witness: a record whose measurement dictionary is entirely absent
encodes its frame-data section as all defaults (zeros). -/
theorem createFrameData_defaults_witness :
    createFrameData { timestamp := none, measurements := {}, radii := [] } =
      .ok (le32 0 ++ le32 0 ++ le32 0 ++ le32 0 ++ le64 0 ++ le64 0) :=
  createFrameData_defaults { timestamp := none, measurements := {}, radii := [] }
    (by decide) (by decide) (by decide) (by decide)

end OmaGen

namespace FrameProc

/-- The first-order image moments delivered by `cv2.moments`. -/
structure Moments where
  m00 : ℚ
  m10 : ℚ
  m01 : ℚ
deriving DecidableEq, Repr

/-- The OpenCV primitives used by `frame_processor.py`, left abstract:
their pixel-level behaviour is outside the embedding, but each is a pure
function of its arguments (OpenCV computes deterministically from the
input data). Real-valued outputs are modelled over `ℚ`. `arcLength` and
`approxPolyDP` are always called with `closed=True` in the source, so the
flag is dropped. `boundingRect` returns `(x, y, w, h)`. -/
structure CvPrims (Frame Img Contour : Type) where
  cvtColor : Frame → Img
  gaussianBlur : Img → Img
  adaptiveThreshold : Img → Img
  morphClose : Img → Img
  morphOpen : Img → Img
  findContours : Img → List Contour
  contourArea : Contour → ℚ
  arcLength : Contour → ℚ
  approxPolyDP : Contour → ℚ → List (ℤ × ℤ)
  boundingRect : Contour → ℤ × ℤ × ℤ × ℤ
  moments : Contour → Moments
  frameShape : Frame → ℤ × ℤ × ℤ

variable {Frame Img Contour : Type}

/-- The `measurements` dictionary built by `_extract_measurements`: every
key may be absent; the empty dictionary (`not measurements` truthy) is the
all-absent record. -/
structure Measurements where
  width : Option ℤ := none
  height : Option ℤ := none
  area : Option ℚ := none
  center : Option (ℤ × ℤ) := none
  perimeter : Option ℚ := none
deriving DecidableEq, Repr

/-- The empty `measurements` dictionary. -/
def emptyMeasurements : Measurements := {}

/-- The mutable fields of a `FrameProcessor` object, as set in
`__init__`: `last_processed_frame = None`, `scan_contours = []`,
`frame_measurements = {}`. -/
structure ProcState (Frame Contour : Type) where
  last_processed_frame : Option Frame := none
  scan_contours : List Contour := []
  frame_measurements : Measurements := {}
deriving DecidableEq, Repr

/-- Embedding of `FrameProcessor._preprocess_frame`: Gaussian blur,
adaptive threshold, morphological close then open. -/
def preprocessFrame (P : CvPrims Frame Img Contour) (grayFrame : Img) : Img :=
  P.morphOpen (P.morphClose (P.adaptiveThreshold (P.gaussianBlur grayFrame)))

/-- Embedding of `FrameProcessor._detect_frame_contours`: keep the outer
contours whose area exceeds 1000 and whose polygon approximation (with
tolerance 2 percent of the perimeter) has 4 to 8 vertices. -/
def detectFrameContours (P : CvPrims Frame Img Contour) (processedFrame : Img) :
    List Contour :=
  (P.findContours processedFrame).filter fun contour =>
    if 1000 < P.contourArea contour then
      decide (4 ≤ (P.approxPolyDP contour (0.02 * P.arcLength contour)).length ∧
        (P.approxPolyDP contour (0.02 * P.arcLength contour)).length ≤ 8)
    else false

/-- Embedding of `FrameProcessor.process_frame`: on a frame with accepted
contours it overwrites `self.scan_contours` and
`self.last_processed_frame` and returns `True`; otherwise it leaves the
state untouched and returns `False`. -/
def processFrame (P : CvPrims Frame Img Contour) (s : ProcState Frame Contour)
    (frame : Option Frame) : ProcState Frame Contour × Bool :=
  match frame with
  | none => (s, false)
  | some f =>
    let contours := detectFrameContours P (preprocessFrame P (P.cvtColor f))
    if contours.isEmpty then (s, false)
    else ({ s with scan_contours := contours, last_processed_frame := some f }, true)

/-- Python `int()` on a rational: truncation toward zero. -/
def pyIntQ (q : ℚ) : ℤ := if 0 ≤ q then ⌊q⌋ else ⌈q⌉

/-- The contour selected by `max(self.scan_contours, key=cv2.contourArea)`
from a nonempty list: Python `max` keeps the first item among ties and
replaces only on strictly larger keys. -/
def mainContourOf (P : CvPrims Frame Img Contour) (c : Contour)
    (rest : List Contour) : Contour :=
  rest.foldl (fun best x => if P.contourArea best < P.contourArea x then x else best) c

/-- Embedding of `FrameProcessor._extract_measurements` (the unused
`frame` parameter is dropped): empty contour set gives the empty
dictionary; otherwise the largest contour provides bounding box, area and
perimeter, and the centroid `(int(M10/M00), int(M01/M00))` is stored only
when `M00 != 0`. -/
def extractMeasurements (P : CvPrims Frame Img Contour)
    (scan_contours : List Contour) : Measurements :=
  match scan_contours with
  | [] => {}
  | c :: rest =>
    let main_contour := mainContourOf P c rest
    let br := P.boundingRect main_contour
    let M := P.moments main_contour
    { width := some br.2.2.1,
      height := some br.2.2.2,
      area := some (P.contourArea main_contour),
      center := if M.m00 ≠ 0 then
          some (pyIntQ (M.m10 / M.m00), pyIntQ (M.m01 / M.m00))
        else none,
      perimeter := some (P.arcLength main_contour) }

/-- Python `int()` on a real: truncation toward zero. -/
noncomputable def pyIntR (x : ℝ) : ℤ := if 0 ≤ x then ⌊x⌋ else ⌈x⌉

/-- Embedding of `FrameProcessor._generate_radii_data`: empty or
center-less measurements give the empty list; otherwise 1000 samples of
the clamped sinusoid
`int(max(1500, min(2700, 1550 + 100 sin 2θ + 50 cos 3θ)))` at
`θ = (i / 1000) · 2π`. -/
noncomputable def generateRadiiData (measurements : Measurements) : List ℤ :=
  if measurements = emptyMeasurements ∨ measurements.center = none then []
  else (List.range 1000).map fun (i : ℕ) =>
    let angle : ℝ := (i : ℝ) / 1000 * 2 * Real.pi
    let base_radius : ℝ := 1550
    let variation : ℝ := 100 * Real.sin (angle * 2) + 50 * Real.cos (angle * 3)
    let radius : ℝ := base_radius + variation
    pyIntR (max 1500 (min 2700 radius))

/-- The `scan_data` dictionary returned by `extract_scan_data`. -/
structure ScanData (Frame Contour : Type) where
  timestamp : List Nat
  measurements : Measurements
  radii : List ℤ
  contours : List Contour
  frame_shape : ℤ × ℤ × ℤ

/-- Embedding of `FrameProcessor.extract_scan_data`; `now` is the value
`_get_timestamp` would read from the clock. The state is threaded
explicitly: the call both mutates the processor object and returns the
optional scan record. -/
noncomputable def extractScanData (P : CvPrims Frame Img Contour) (now : List Nat)
    (s : ProcState Frame Contour) (frame : Option Frame) :
    ProcState Frame Contour × Option (ScanData Frame Contour) :=
  match frame with
  | none => (s, none)
  | some f =>
    let pr := processFrame P s (some f)
    if pr.2 then
      let measurements := extractMeasurements P pr.1.scan_contours
      let radii_data := generateRadiiData measurements
      (pr.1, some { timestamp := now, measurements := measurements,
                    radii := radii_data, contours := pr.1.scan_contours,
                    frame_shape := P.frameShape f })
    else (pr.1, none)

theorem center_some_not_empty (m : Measurements) (c : ℤ × ℤ)
    (h : m.center = some c) :
    ¬ (m = emptyMeasurements ∨ m.center = none) := by
  rintro (rfl | hn)
  · simp [emptyMeasurements] at h
  · rw [h] at hn
    exact Option.noConfusion hn

theorem pyIntR_eq_floor (x : ℝ) (h : 0 ≤ x) : pyIntR x = ⌊x⌋ := if_pos h

theorem pyIntR_clamp_bounds (x : ℝ) :
    1500 ≤ pyIntR (max 1500 (min 2700 x)) ∧ pyIntR (max 1500 (min 2700 x)) ≤ 2700 := by
  have h1 : (1500 : ℝ) ≤ max 1500 (min 2700 x) := le_max_left _ _
  have h2 : max (1500 : ℝ) (min 2700 x) ≤ 2700 :=
    max_le (by norm_num) (min_le_left _ _)
  rw [pyIntR, if_pos (by linarith : (0 : ℝ) ≤ max 1500 (min 2700 x))]
  constructor
  · exact Int.le_floor.mpr (by push_cast; linarith)
  · have h3 : ⌊max (1500 : ℝ) (min 2700 x)⌋ < 2701 :=
      Int.floor_lt.mpr (by push_cast; linarith)
    omega

theorem generateRadiiData_getElem (m : Measurements)
    (hne : ¬ (m = emptyMeasurements ∨ m.center = none)) (i : Nat) (hi : i < 1000) :
    (generateRadiiData m)[i]? =
      some (pyIntR (max 1500 (min 2700 (1550 +
        (100 * Real.sin ((i : ℝ) / 1000 * 2 * Real.pi * 2) +
         50 * Real.cos ((i : ℝ) / 1000 * 2 * Real.pi * 3)))))) := by
  rw [generateRadiiData, if_neg hne, List.getElem?_map, List.getElem?_range hi]
  rfl

/-- C4: for every measurement that has a center the generated radial
profile has exactly 1000 samples and every sample lies in the closed
interval [1500, 2700] (tenths of a millimeter). -/
theorem generateRadiiData_profile_invariant (m : Measurements) (c : ℤ × ℤ)
    (h : m.center = some c) :
    (generateRadiiData m).length = 1000 ∧
      ∀ r ∈ generateRadiiData m, 1500 ≤ r ∧ r ≤ 2700 := by
  have hne := center_some_not_empty m c h
  rw [generateRadiiData, if_neg hne]
  refine ⟨by rw [List.length_map, List.length_range], ?_⟩
  intro r hr
  simp only [List.mem_map, List.mem_range] at hr
  obtain ⟨i, hi, hri⟩ := hr
  rw [← hri]
  exact pyIntR_clamp_bounds _

/-- Witness for the profile invariant at a measurement carrying only a
center. -/
theorem generateRadiiData_profile_invariant_witness :
    (generateRadiiData { center := some (0, 0) }).length = 1000 ∧
      ∀ r ∈ generateRadiiData { center := some (0, 0) }, 1500 ≤ r ∧ r ≤ 2700 :=
  generateRadiiData_profile_invariant { center := some (0, 0) } (0, 0) rfl

/-- C5 (amended): sample `i` of the generated profile is the clamped
sinusoid `clamp(1550 + 100 sin 2θ + 50 cos 3θ, 1500, 2700)` at
`θ = 2πi/1000` TRUNCATED toward zero by Python's `int()` — the floor,
since these values are positive — rather than rounded to the nearest
integer tenth-millimeter. -/
theorem generateRadiiData_truncated_formula (m : Measurements) (c : ℤ × ℤ)
    (h : m.center = some c) (i : Nat) (hi : i < 1000) :
    (generateRadiiData m)[i]? =
      some ⌊max 1500 (min 2700 ((1550 : ℝ) +
        100 * Real.sin (2 * (2 * Real.pi * i / 1000)) +
        50 * Real.cos (3 * (2 * Real.pi * i / 1000))))⌋ := by
  rw [generateRadiiData_getElem m (center_some_not_empty m c h) i hi]
  have harg : (1550 : ℝ) +
      (100 * Real.sin ((i : ℝ) / 1000 * 2 * Real.pi * 2) +
       50 * Real.cos ((i : ℝ) / 1000 * 2 * Real.pi * 3)) =
      (1550 : ℝ) + 100 * Real.sin (2 * (2 * Real.pi * i / 1000)) +
        50 * Real.cos (3 * (2 * Real.pi * i / 1000)) := by
    have e2 : (i : ℝ) / 1000 * 2 * Real.pi * 2 = 2 * (2 * Real.pi * i / 1000) := by
      ring
    have e3 : (i : ℝ) / 1000 * 2 * Real.pi * 3 = 3 * (2 * Real.pi * i / 1000) := by
      ring
    rw [e2, e3]
    ring
  rw [harg, pyIntR_eq_floor _ (le_trans (by norm_num) (le_max_left _ _))]

/-- Witness for the truncation formula at sample 0 of a measurement with
a center. -/
theorem generateRadiiData_truncated_formula_witness :
    (generateRadiiData { center := some (0, 0) })[0]? =
      some ⌊max 1500 (min 2700 ((1550 : ℝ) +
        100 * Real.sin (2 * (2 * Real.pi * (0 : ℕ) / 1000)) +
        50 * Real.cos (3 * (2 * Real.pi * (0 : ℕ) / 1000))))⌋ :=
  generateRadiiData_truncated_formula { center := some (0, 0) } (0, 0) rfl 0
    (by norm_num)

theorem sample11_value_bounds :
    (1612.5 : ℝ) < 1550 + 100 * Real.sin (2 * (2 * Real.pi * 11 / 1000)) +
      50 * Real.cos (3 * (2 * Real.pi * 11 / 1000)) ∧
    1550 + 100 * Real.sin (2 * (2 * Real.pi * 11 / 1000)) +
      50 * Real.cos (3 * (2 * Real.pi * 11 / 1000)) < 1613 := by
  have hpiL := Real.pi_gt_d6
  have hpiU := Real.pi_lt_d6
  have hx2L : (0.13823 : ℝ) < 2 * (2 * Real.pi * 11 / 1000) := by linarith
  have hx2U : 2 * (2 * Real.pi * 11 / 1000) < 0.1382301 := by linarith
  have hx2pos : (0 : ℝ) < 2 * (2 * Real.pi * 11 / 1000) := by linarith
  have hx3L : (0.207345 : ℝ) < 3 * (2 * Real.pi * 11 / 1000) := by linarith
  have hx3U : 3 * (2 * Real.pi * 11 / 1000) < 0.2073452 := by linarith
  have hx3pos : (0 : ℝ) < 3 * (2 * Real.pi * 11 / 1000) := by linarith
  have hc3U : (2 * (2 * Real.pi * 11 / 1000)) ^ 3 < 0.002642 :=
    lt_trans (pow_lt_pow_left₀ hx2U (le_of_lt hx2pos) (by norm_num)) (by norm_num)
  have hc3L : (0.002641 : ℝ) < (2 * (2 * Real.pi * 11 / 1000)) ^ 3 :=
    lt_trans (by norm_num : (0.002641 : ℝ) < 0.13823 ^ 3)
      (pow_lt_pow_left₀ hx2L (by norm_num) (by norm_num))
  have hc4U : (2 * (2 * Real.pi * 11 / 1000)) ^ 4 < 0.000366 :=
    lt_trans (pow_lt_pow_left₀ hx2U (le_of_lt hx2pos) (by norm_num)) (by norm_num)
  have hc4pos : (0 : ℝ) < (2 * (2 * Real.pi * 11 / 1000)) ^ 4 := by positivity
  have hs2U : (3 * (2 * Real.pi * 11 / 1000)) ^ 2 < 0.04299204 :=
    lt_trans (pow_lt_pow_left₀ hx3U (le_of_lt hx3pos) (by norm_num)) (by norm_num)
  have hs2L : (0.0429919 : ℝ) < (3 * (2 * Real.pi * 11 / 1000)) ^ 2 :=
    lt_trans (by norm_num : (0.0429919 : ℝ) < 0.207345 ^ 2)
      (pow_lt_pow_left₀ hx3L (by norm_num) (by norm_num))
  have hq4U : (3 * (2 * Real.pi * 11 / 1000)) ^ 4 < 0.0018484 :=
    lt_trans (pow_lt_pow_left₀ hx3U (le_of_lt hx3pos) (by norm_num)) (by norm_num)
  have hq4pos : (0 : ℝ) < (3 * (2 * Real.pi * 11 / 1000)) ^ 4 := by positivity
  have habs2 : |2 * (2 * Real.pi * 11 / 1000)| ≤ 1 := by
    rw [abs_of_pos hx2pos]
    linarith
  have habs3 : |3 * (2 * Real.pi * 11 / 1000)| ≤ 1 := by
    rw [abs_of_pos hx3pos]
    linarith
  have hsin := Real.sin_bound habs2
  have hcos := Real.cos_bound habs3
  rw [abs_of_pos hx2pos] at hsin
  rw [abs_of_pos hx3pos] at hcos
  obtain ⟨hsinL, hsinU⟩ := abs_le.mp hsin
  obtain ⟨hcosL, hcosU⟩ := abs_le.mp hcos
  constructor
  · linarith
  · linarith

/-- C5 counterexample: at sample index 11 the real clamped value is
about 1612.70; the code stores its truncation 1612 while rounding to the
nearest integer gives 1613, so the samples are not the claimed
round-to-nearest values. -/
theorem generateRadiiData_not_round_counterexample :
    (generateRadiiData { center := some (0, 0) })[11]? ≠
      some (round (max 1500 (min 2700 ((1550 : ℝ) +
        100 * Real.sin (2 * (2 * Real.pi * 11 / 1000)) +
        50 * Real.cos (3 * (2 * Real.pi * 11 / 1000)))))) := by
  have hlhs := generateRadiiData_getElem { center := some (0, 0) }
    (center_some_not_empty _ (0, 0) rfl) 11 (by norm_num)
  rw [hlhs]
  have h11 : ((11 : ℕ) : ℝ) = 11 := by norm_num
  rw [h11]
  have harg2 : (11 : ℝ) / 1000 * 2 * Real.pi * 2 =
      2 * (2 * Real.pi * 11 / 1000) := by ring
  have harg3 : (11 : ℝ) / 1000 * 2 * Real.pi * 3 =
      3 * (2 * Real.pi * 11 / 1000) := by ring
  have hsum : (1550 : ℝ) + (100 * Real.sin (2 * (2 * Real.pi * 11 / 1000)) +
      50 * Real.cos (3 * (2 * Real.pi * 11 / 1000))) =
      1550 + 100 * Real.sin (2 * (2 * Real.pi * 11 / 1000)) +
      50 * Real.cos (3 * (2 * Real.pi * 11 / 1000)) := by ring
  rw [harg2, harg3, hsum]
  obtain ⟨hvL, hvU⟩ := sample11_value_bounds
  have hmin : min (2700 : ℝ) (1550 + 100 * Real.sin (2 * (2 * Real.pi * 11 / 1000)) +
      50 * Real.cos (3 * (2 * Real.pi * 11 / 1000))) =
      1550 + 100 * Real.sin (2 * (2 * Real.pi * 11 / 1000)) +
      50 * Real.cos (3 * (2 * Real.pi * 11 / 1000)) :=
    min_eq_right (by linarith)
  have hmax : max (1500 : ℝ) (1550 + 100 * Real.sin (2 * (2 * Real.pi * 11 / 1000)) +
      50 * Real.cos (3 * (2 * Real.pi * 11 / 1000))) =
      1550 + 100 * Real.sin (2 * (2 * Real.pi * 11 / 1000)) +
      50 * Real.cos (3 * (2 * Real.pi * 11 / 1000)) :=
    max_eq_right (by linarith)
  rw [hmin, hmax, pyIntR_eq_floor _ (by linarith)]
  have hfloor : ⌊(1550 : ℝ) + 100 * Real.sin (2 * (2 * Real.pi * 11 / 1000)) +
      50 * Real.cos (3 * (2 * Real.pi * 11 / 1000))⌋ = 1612 := by
    rw [Int.floor_eq_iff]
    constructor
    · push_cast
      linarith
    · push_cast
      linarith
  have hround : round ((1550 : ℝ) + 100 * Real.sin (2 * (2 * Real.pi * 11 / 1000)) +
      50 * Real.cos (3 * (2 * Real.pi * 11 / 1000))) = 1613 := by
    rw [round_eq, Int.floor_eq_iff]
    constructor
    · push_cast
      linarith
    · push_cast
      linarith
  rw [hfloor, hround]
  norm_num

/-- C6: a frame in which no contour passes the acceptance filter (area
above the minimum and 4 to 8 polygon vertices) makes the pipeline return
an absent result — no scan record from `extract_scan_data`, the empty
measurement dictionary from the empty contour set, and the empty profile
from the empty measurement; all three functions are total, so this is a
normal return value, not an error. -/
theorem extract_none_of_no_qualifying_contour (P : CvPrims Frame Img Contour)
    (now : List Nat) (s : ProcState Frame Contour) (f : Frame)
    (h : detectFrameContours P (preprocessFrame P (P.cvtColor f)) = []) :
    (extractScanData P now s (some f)).2 = none ∧
      extractMeasurements P ([] : List Contour) = emptyMeasurements ∧
      generateRadiiData emptyMeasurements = [] := by
  refine ⟨?_, rfl, by simp [generateRadiiData]⟩
  simp [extractScanData, processFrame, h]

/-- Witness for detection emptiness with primitives that find no
contours. -/
theorem extract_none_witness :
    (extractScanData
      ({ cvtColor := fun _ => (), gaussianBlur := fun x => x,
         adaptiveThreshold := fun x => x, morphClose := fun x => x,
         morphOpen := fun x => x, findContours := fun _ => [],
         contourArea := fun _ => 0, arcLength := fun _ => 0,
         approxPolyDP := fun _ _ => [], boundingRect := fun _ => (0, 0, 0, 0),
         moments := fun _ => ⟨0, 0, 0⟩, frameShape := fun _ => (0, 0, 0) } :
        CvPrims Unit Unit Unit)
      [] {} (some ())).2 = none ∧
      extractMeasurements
      ({ cvtColor := fun _ => (), gaussianBlur := fun x => x,
         adaptiveThreshold := fun x => x, morphClose := fun x => x,
         morphOpen := fun x => x, findContours := fun _ => [],
         contourArea := fun _ => 0, arcLength := fun _ => 0,
         approxPolyDP := fun _ _ => [], boundingRect := fun _ => (0, 0, 0, 0),
         moments := fun _ => ⟨0, 0, 0⟩, frameShape := fun _ => (0, 0, 0) } :
        CvPrims Unit Unit Unit) ([] : List Unit) = emptyMeasurements ∧
      generateRadiiData emptyMeasurements = [] :=
  extract_none_of_no_qualifying_contour _ [] {} () rfl

/-- C8: the centroid is computed from the first-order moments as
`(int(M10/M00), int(M01/M00))` and the division is guarded: when the
selected contour has `M00 = 0` the measurement simply has no center (the
embedding is total, so nothing is raised), and otherwise the center is
exactly the pair of truncated moment quotients. -/
theorem extractMeasurements_center_guarded (P : CvPrims Frame Img Contour)
    (c : Contour) (rest : List Contour) :
    ((P.moments (mainContourOf P c rest)).m00 = 0 →
      (extractMeasurements P (c :: rest)).center = none) ∧
    ((P.moments (mainContourOf P c rest)).m00 ≠ 0 →
      (extractMeasurements P (c :: rest)).center =
        some (pyIntQ ((P.moments (mainContourOf P c rest)).m10 /
            (P.moments (mainContourOf P c rest)).m00),
          pyIntQ ((P.moments (mainContourOf P c rest)).m01 /
            (P.moments (mainContourOf P c rest)).m00))) := by
  constructor
  · intro h0
    simp [extractMeasurements, h0]
  · intro h0
    simp [extractMeasurements, h0]

/-- Witness for the division guard with primitives whose moments are all
zero: the extracted measurement has no center. -/
theorem extractMeasurements_center_guarded_witness :
    (extractMeasurements
      ({ cvtColor := fun _ => (), gaussianBlur := fun x => x,
         adaptiveThreshold := fun x => x, morphClose := fun x => x,
         morphOpen := fun x => x, findContours := fun _ => [],
         contourArea := fun _ => 0, arcLength := fun _ => 0,
         approxPolyDP := fun _ _ => [], boundingRect := fun _ => (0, 0, 0, 0),
         moments := fun _ => ⟨0, 0, 0⟩, frameShape := fun _ => (0, 0, 0) } :
        CvPrims Unit Unit Unit) [()]).center = none :=
  (extractMeasurements_center_guarded _ () []).1 rfl

/-- C7 (amended): the codec operations are pure functions of their
arguments by construction, and the observable result of
`extract_scan_data` is independent of the state retained from earlier
calls: two calls on the same frame with the same clock value return the
same optional record whatever processor states they start from. (The
processor object itself is mutated and does retain state between calls;
see the counterexample.) -/
theorem extract_result_state_independent (P : CvPrims Frame Img Contour)
    (now : List Nat) (s1 s2 : ProcState Frame Contour) (frame : Option Frame) :
    (extractScanData P now s1 frame).2 = (extractScanData P now s2 frame).2 := by
  cases frame with
  | none => rfl
  | some f =>
    simp only [extractScanData, processFrame]
    by_cases hc :
        (detectFrameContours P (preprocessFrame P (P.cvtColor f))).isEmpty
    · simp [hc]
    · simp [hc]

/-- C7 counterexample: `process_frame` writes the detected contour set
and the frame into the processor object, so internal mutable state IS
retained between calls — after one successful call the state handed to
the next call differs from the state before it. -/
theorem processFrame_mutates_state :
    (processFrame
      ({ cvtColor := fun _ => (), gaussianBlur := fun x => x,
         adaptiveThreshold := fun x => x, morphClose := fun x => x,
         morphOpen := fun x => x, findContours := fun _ => [()],
         contourArea := fun _ => 2000, arcLength := fun _ => 1,
         approxPolyDP := fun _ _ => [(0, 0), (0, 1), (1, 0), (1, 1)],
         boundingRect := fun _ => (0, 0, 10, 10), moments := fun _ => ⟨1, 1, 1⟩,
         frameShape := fun _ => (0, 0, 0) } : CvPrims Unit Unit Unit)
      {} (some ())).1 ≠ ({} : ProcState Unit Unit) := by
  decide

end FrameProc
